import Mathlib

/-!
Verification development for the Atomera job-orchestration backend.

The definitions below are a shallow embedding of the Python sources:
  * `backend/services/boltz_service.py` (`BoltzService`): job store on disk,
    job creation, the `run_prediction` state machine with its mock-result
    downgrade, and `_execute_boltz_prediction`'s output-directory parsing;
  * `backend/services/runpod_service.py` (`RunPodService`): remote submit,
    polling wait loop, output fetch/normalization, base64 artifact transport;
  * `backend/main.py`: the `/jobs` listing endpoint.

Modelling conventions: the metadata files written per job are modelled as an
association list keyed by job id; wall-clock timestamps are abstract `Nat`
ticks; float progress values and JSON numbers are `Rat` (every numeric
constant in the sources is decimal-exact); external collaborators (uuid
generation, the HTTP layer, `json.loads`) are parameters of the functions
that call them.
-/

namespace Atomera

/-- ASCII lower-casing of one character. -/
def lowerChar (c : Char) : Char :=
  if 65 ≤ c.toNat && c.toNat ≤ 90 then Char.ofNat (c.toNat + 32) else c

/-- Python `str.lower()` restricted to ASCII, which is all the sources use. -/
def lowerStr (s : String) : String :=
  String.mk (s.data.map lowerChar)

/-- Does `hay` start with `needle`? (helper for substring containment). -/
def startsWithChars : List Char → List Char → Bool
  | [], _ => true
  | _ :: _, [] => false
  | n :: ns, h :: hs => n == h && startsWithChars ns hs

/-- Is `needle` a contiguous substring of `hay`? -/
def hasSub (needle : List Char) : List Char → Bool
  | [] => startsWithChars needle []
  | h :: hs => startsWithChars needle (h :: hs) || hasSub needle hs

/-- Python's `needle in hay` on strings. -/
def strContains (hay needle : String) : Bool :=
  hasSub needle.data hay.data

/-! ## Job store (the per-job `metadata.json` files of `BoltzService`) -/

/-- One job's persisted metadata record (`metadata.json`). -/
structure JobMeta where
  status : String
  progress : Rat
  created_at : Nat
  updated_at : Nat
  reqProtein : String
  reqLigand : String
  deriving Repr, DecidableEq

/-- The collection of per-job metadata files, keyed by job id. -/
def JobStore := List (String × JobMeta)

instance : DecidableEq JobStore := by
  unfold JobStore
  infer_instance

/-- Reading the metadata file of a job id (`metadata_file.exists()` plus
`json.load`): the record stored under the given id, if any. -/
def lookupJob : JobStore → String → Option JobMeta
  | [], _ => none
  | p :: ps, jobId => if p.1 = jobId then some p.2 else lookupJob ps jobId

/-- Model of `BoltzService._update_job_status`: if the metadata file exists, merge the
new status and progress and refresh `updated_at` (to the current clock tick
`now`); if the file is missing, do nothing at all. -/
def updateJobStatus (s : JobStore) (jobId : String) (status : String)
    (progress : Rat) (now : Nat) : JobStore :=
  match lookupJob s jobId with
  | none => s
  | some _ =>
    s.map (fun p =>
      if p.1 = jobId then
        (p.1, { p.2 with status := status, progress := progress, updated_at := now })
      else p)

/-- Model of `BoltzService.create_prediction_job`: allocate an id (`str(uuid.uuid4())`,
supplied here as `newId` since uuid generation is an external collaborator),
and write the initial metadata record with status `"pending"`, progress `0`,
and `created_at = updated_at = now`.  Returns the id and the new store. -/
def createPredictionJob (s : JobStore) (newId : String) (now : Nat)
    (protein ligand : String) : String × JobStore :=
  let meta : JobMeta :=
    { status := "pending", progress := 0, created_at := now, updated_at := now,
      reqProtein := protein, reqLigand := ligand }
  (newId, (newId, meta) :: s)

/-- A sequence of `create_prediction_job` calls, the k-th call drawing its
id from the uuid stream `gen` at position `k` (uuid4 is an external
collaborator; its draws are modelled as a stream of strings). -/
def runCreates (gen : Nat → String) (now : Nat) :
    Nat → List (String × String) → JobStore
  | _, [] => []
  | k, (protein, ligand) :: rest =>
    (createPredictionJob (runCreates gen now (k + 1) rest) (gen k) now
      protein ligand).2

/-- The `JobStatus` response record of `BoltzService.get_job_status`. -/
structure JobStatusRec where
  job_id : String
  status : String
  created_at : Nat
  updated_at : Nat
  progress : Rat
  deriving Repr, DecidableEq

/-- Model of `BoltzService.get_job_status`: `None` when the metadata file is missing,
otherwise the stored status / timestamps / progress. -/
def getJobStatus (s : JobStore) (jobId : String) : Option JobStatusRec :=
  match lookupJob s jobId with
  | none => none
  | some m =>
    some { job_id := jobId, status := m.status, created_at := m.created_at,
           updated_at := m.updated_at, progress := m.progress }

/-! ## `BoltzService.run_prediction` state machine -/

/-- The substring test of `run_prediction`'s `except` block deciding whether a
failure is downgraded to mock results:
`"memory" in error_str or "allocation" in error_str or "ArrayMemoryError" in
str(e) or "timeout" in error_str or "timed out" in error_str or "subprocess"
in error_str or "calledprocesserror" in error_str or "non-zero exit status"
in error_str or "boltz" in error_str` with `error_str = str(e).lower()`. -/
def isRecoverableError (msg : String) : Bool :=
  let errorStr := lowerStr msg
  strContains errorStr "memory" || strContains errorStr "allocation" ||
  strContains msg "ArrayMemoryError" ||
  strContains errorStr "timeout" || strContains errorStr "timed out" ||
  strContains errorStr "subprocess" || strContains errorStr "calledprocesserror" ||
  strContains errorStr "non-zero exit status" || strContains errorStr "boltz"

/-- How one call to `run_prediction` can unfold, as seen from the job-status
updates it performs: the input-YAML step may raise (`yamlError`), the engine
step may raise — e.g. `subprocess.run(..., check=True)` on a non-zero exit,
or a `TimeoutExpired` (`execError`) — or the engine step succeeds (`execOk`).
The carried string is `str(e)` of the raised exception. -/
inductive RunOutcome where
  | yamlError (msg : String)
  | execError (msg : String)
  | execOk
  deriving Repr, DecidableEq

/-- The status updates of the error-handling `except` block: recoverable
errors go through `_generate_mock_results` (running 75 %, then completed
100 %); anything else is marked failed with progress reset to 0. -/
def errorHandlingUpdates (msg : String) : List (String × Rat) :=
  if isRecoverableError msg then
    [("running", 75), ("completed", 100)]
  else
    [("failed", 0)]

/-- The `(status, progress)` pairs passed to `_update_job_status`, in order,
during one call of `run_prediction` with the given outcome.  The happy path
is running 25 % → running 50 % → completed 100 %; a YAML failure happens
between the 25 % and 50 % updates; an engine failure happens after the 50 %
update; both then run `errorHandlingUpdates`. -/
def runPredictionUpdates : RunOutcome → List (String × Rat)
  | .yamlError msg => ("running", 25) :: errorHandlingUpdates msg
  | .execError msg => ("running", 25) :: ("running", 50) :: errorHandlingUpdates msg
  | .execOk => [("running", 25), ("running", 50), ("completed", 100)]

/-- The full persisted `(status, progress)` history of one job driven through
`create_prediction_job` followed by `run_prediction`: the initial record is
`("pending", 0)`, then each update overwrites the stored pair. -/
def jobStatusTrace (o : RunOutcome) : List (String × Rat) :=
  ("pending", 0) :: runPredictionUpdates o

/-- Rank of a status in the forward-only lifecycle
pending → running → {completed, failed}. -/
def statusRank : String → Nat
  | "pending" => 0
  | "running" => 1
  | "completed" => 2
  | "failed" => 2
  | _ => 3

/-- Is a status terminal? -/
def isTerminalStatus (s : String) : Bool :=
  s == "completed" || s == "failed"

/-- One legal step of the job lifecycle: the source state is not terminal,
the status rank does not decrease, and the progress does not decrease except
when entering `failed` (where the code resets it to 0). -/
def stepOk (a b : String × Rat) : Bool :=
  !isTerminalStatus a.1 && statusRank a.1 ≤ statusRank b.1 &&
  (b.1 == "failed" || decide (a.2 ≤ b.2))

/-- All adjacent pairs of the trace are legal steps. -/
def chainOk : List (String × Rat) → Bool
  | [] => true
  | [_] => true
  | a :: b :: rest => stepOk a b && chainOk (b :: rest)

/-- The trace ends in a terminal record: completed at 100 or failed at 0. -/
def endsTerminal (l : List (String × Rat)) : Bool :=
  match l.getLast? with
  | some ("completed", p) => p == 100
  | some ("failed", p) => p == 0
  | _ => false

/-- The `PredictionResult` fields that `run_prediction` fills in. -/
structure PredictionResultM where
  job_id : String
  status : String
  error_message : Option String
  deriving Repr, DecidableEq

/-- The `error_message` attached to the mock placeholder result of
`_generate_mock_results`. -/
def mockResultNote : String :=
  "Comprehensive mock results generated due to memory constraints"

/-- The `PredictionResult` returned by `run_prediction`: on success a
completed result (no error message); on a recoverable failure the mock
placeholder of `_generate_mock_results` — status `"completed"`, flagged only
by its fixed `error_message` note; on any other failure a failed result
carrying `str(e)`. -/
def runPredictionResult (jobId : String) : RunOutcome → PredictionResultM
  | .execOk => { job_id := jobId, status := "completed", error_message := none }
  | .yamlError msg =>
    if isRecoverableError msg then
      { job_id := jobId, status := "completed", error_message := some mockResultNote }
    else
      { job_id := jobId, status := "failed", error_message := some msg }
  | .execError msg =>
    if isRecoverableError msg then
      { job_id := jobId, status := "completed", error_message := some mockResultNote }
    else
      { job_id := jobId, status := "failed", error_message := some msg }

/-! ## Job listing (`GET /jobs` in `backend/main.py`) -/

/-- Keep `j` when the filter is absent or matches the persisted status. -/
def matchesFilter (statusFilter : Option String) (j : JobMeta) : Bool :=
  match statusFilter with
  | none => true
  | some s => j.status == s

/-- Descending insertion by `updated_at` (newest first). -/
def insertByUpdatedDesc (j : JobMeta) : List JobMeta → List JobMeta
  | [] => [j]
  | k :: ks =>
    if k.updated_at ≤ j.updated_at then j :: k :: ks
    else k :: insertByUpdatedDesc j ks

/-- Sort a job list by `updated_at` descending. -/
def sortByUpdatedDesc : List JobMeta → List JobMeta
  | [] => []
  | j :: js => insertByUpdatedDesc j (sortByUpdatedDesc js)

/-- Modelled from the spec: `BoltzService.list_jobs` is invoked by the
`/jobs` endpoint of `backend/main.py` but its definition is not among the
sources; per spec §4.1 it "filters by status, sorts by updated_at
descending, truncates to limit". -/
def listJobs (jobs : List JobMeta) (statusFilter : Option String)
    (limit : Nat) : List JobMeta :=
  (sortByUpdatedDesc (jobs.filter (matchesFilter statusFilter))).take limit

/-! ## `RunPodService` (remote execution adapter) -/

/-- The JSON body returned by the remote status endpoint, restricted to the
fields the adapter reads. `output` models the optional `output` key; `error`
the optional `error` key. -/
structure RemoteStatusData where
  status : String
  error : Option String
  deriving Repr, DecidableEq

/-- Remote statuses treated as terminal failures by the adapter
(`FAILED`, `CANCELLED`, `TIMED_OUT`). -/
def isFailedRemoteStatus (s : String) : Bool :=
  s == "FAILED" || s == "CANCELLED" || s == "TIMED_OUT"

/-- Is a remote status terminal (completion or failure)? -/
def isTerminalRemoteStatus (s : String) : Bool :=
  s == "COMPLETED" || isFailedRemoteStatus s

/-- The exception message of the wait loop's failure branch:
`error_msg = status_data.get("error", f"Job {status.lower()}")` followed
by `RuntimeError(f"Job {job_id} {status.lower()}: {error_msg}")`. -/
def remoteFailureMsg (jobId : String) (d : RemoteStatusData) : String :=
  let errorMsg :=
    match d.error with
    | some e => e
    | none => "Job " ++ lowerStr d.status
  "Job " ++ jobId ++ " " ++ lowerStr d.status ++ ": " ++ errorMsg

/-- The message of
`TimeoutError(f"Job {job_id} did not complete within {timeout} seconds")`. -/
def waitTimeoutMsg (jobId : String) (timeout : Nat) : String :=
  "Job " ++ jobId ++ " did not complete within " ++ toString timeout ++ " seconds"

/-- Result of `wait_for_job_completion`: the returned status payload, or one
of the two exceptions it raises. -/
inductive WaitResult where
  | completed (d : RemoteStatusData)
  | remoteFailure (msg : String)
  | timedOut (msg : String)
  deriving Repr, DecidableEq

/-- One loop of `wait_for_job_completion`, iteration counter `k`.  Time
model: the k-th poll happens at elapsed time `k * pollInterval` (the loop
body's only suspension is `time.sleep(poll_interval)` after each poll), and
the `elapsed > timeout` guard runs before the poll.  `fuel` bounds the
recursion; `waitForJobCompletion` supplies enough fuel that, for a positive
poll interval, the guard always fires before fuel runs out, so the
fuel-exhausted case is given the same timeout result as the guard. -/
def waitLoop (poll : Nat → RemoteStatusData) (jobId : String)
    (pollInterval timeout : Nat) : Nat → Nat → WaitResult
  | 0, _ => .timedOut (waitTimeoutMsg jobId timeout)
  | fuel + 1, k =>
    if k * pollInterval > timeout then .timedOut (waitTimeoutMsg jobId timeout)
    else if (poll k).status == "COMPLETED" then .completed (poll k)
    else if isFailedRemoteStatus (poll k).status then
      .remoteFailure (remoteFailureMsg jobId (poll k))
    else waitLoop poll jobId pollInterval timeout fuel (k + 1)

/-- Model of `RunPodService.wait_for_job_completion`: poll until a terminal status is
observed or the timeout elapses.  `poll k` is the status payload the k-th
`get_job_status` call would observe (the HTTP layer is a collaborator). -/
def waitForJobCompletion (poll : Nat → RemoteStatusData) (jobId : String)
    (pollInterval timeout : Nat) : WaitResult :=
  waitLoop poll jobId pollInterval timeout (timeout / pollInterval + 2) 0

/-- Model of `RunPodService.submit_job`, from the successful HTTP response on: the
response body's `id` field (`none` when absent) is read with
`result.get("id")` and checked with `if not job_id:` — Python truthiness, so
an absent id *and* an empty-string id both raise
`ValueError("RunPod API did not return a job ID: ...")`. -/
def submitJob (responseId : Option String) : Except String String :=
  match responseId with
  | none => .error "RunPod API did not return a job ID"
  | some jobId =>
    if jobId == "" then .error "RunPod API did not return a job ID"
    else .ok jobId

/-- The `output` field of a remote status payload: a structured object
(modelled as a field list) or a raw string. -/
inductive RemoteOutput where
  | obj (fields : List (String × String))
  | str (s : String)
  deriving Repr, DecidableEq

/-- A remote status payload together with its optional `output` field, as
read by `get_job_output`. -/
structure RemoteStatusOutput where
  status : String
  output : Option RemoteOutput
  deriving Repr, DecidableEq

/-- Model of `RunPodService.get_job_output`: requires `COMPLETED` (else raises
`ValueError`), reads `status.get("output", {})`, and when the output is a
string attempts `json.loads` (the decoder `dec` is the collaborator): a
successfully decoded string is replaced by the decoded object, an
undecodable string is returned as-is. -/
def getJobOutput (dec : String → Option (List (String × String)))
    (jobId : String) (d : RemoteStatusOutput) : Except String RemoteOutput :=
  if d.status != "COMPLETED" then
    .error ("Job " ++ jobId ++ " is not completed. Current status: " ++ d.status)
  else
    let out := d.output.getD (.obj [])
    match out with
    | .obj fields => .ok (.obj fields)
    | .str s =>
      match dec s with
      | some fields => .ok (.obj fields)
      | none => .ok (.str s)

/-! ## `BoltzService._execute_boltz_prediction`: locating and parsing the
engine's output directory (after a successful engine process run) -/

/-- Contents of `affinity_{input_name}.json` as read by the parser:
`affinity_data.get("affinity_pred_value")` and
`affinity_data.get("affinity_probability_binary")` (both may be absent). -/
structure AffinityJson where
  affinity_pred_value : Option Rat
  affinity_probability_binary : Option Rat
  deriving Repr, DecidableEq

/-- Contents of `confidence_{input_name}_model_0.json` as read by the parser:
`confidence_data.get("confidence_score", 0.85)`. -/
structure ConfidenceJson where
  confidence_score : Option Rat
  deriving Repr, DecidableEq

/-- One subdirectory of the engine's `predictions` directory.  The two
artifact fields model the files at the names the parser looks up
(`affinity_{input_name}.json`, `confidence_{input_name}_model_0.json`):
`none` = file missing, `some none` = file present but `json.load` raises,
`some (some d)` = file present and parsed as `d`. -/
structure PredDir where
  name : String
  cifFiles : List String
  affinityFile : Option (Option AffinityJson)
  confidenceFile : Option (Option ConfidenceJson)
  deriving Repr, DecidableEq

/-- The directory-selection loop: the first subdirectory whose name contains
the input spec's base name (`input_name in subdir.name`); if none matches,
fall back to the first subdirectory in iteration order; with no
subdirectories at all there is nothing to select. -/
def findPredDir (inputName : String) (dirs : List PredDir) : Option PredDir :=
  match dirs.find? (fun d => strContains d.name inputName) with
  | some d => some d
  | none => dirs.head?

/-- The `result_data` dictionary built by `_execute_boltz_prediction`. -/
structure ExecResultData where
  poses_generated : Nat
  pose_files : List String
  affinity_pred_value : Option Rat
  affinity_probability_binary : Option Rat
  confidence_score : Option Rat
  deriving Repr, DecidableEq

/-- The artifact-parsing tail of `_execute_boltz_prediction` on the chosen
subdirectory: count the `.cif` pose files; parse the affinity artifact if
present, substituting the documented defaults (-7.2, 0.89) when it is
missing or unparsable; parse the confidence artifact if present (with 0.85
as the `.get` default for a missing key), substituting 0.85 when it is
missing or unparsable. -/
def parsePredDir (d : PredDir) : ExecResultData :=
  let affinityPair : Option Rat × Option Rat :=
    match d.affinityFile with
    | some (some a) => (a.affinity_pred_value, a.affinity_probability_binary)
    | some none => (some (-7.2), some 0.89)
    | none => (some (-7.2), some 0.89)
  let confidenceVal : Option Rat :=
    match d.confidenceFile with
    | some (some c) => some (c.confidence_score.getD 0.85)
    | some none => some 0.85
    | none => some 0.85
  { poses_generated := d.cifFiles.length,
    pose_files := d.cifFiles,
    affinity_pred_value := affinityPair.1,
    affinity_probability_binary := affinityPair.2,
    confidence_score := confidenceVal }

/-- The post-process part of `_execute_boltz_prediction` (the engine process
exited successfully): raise if the `predictions` directory is missing, raise
if it has no subdirectory, otherwise parse the selected subdirectory. -/
def executeBoltzParse (inputName : String) (predictionsDirExists : Bool)
    (dirs : List PredDir) : Except String ExecResultData :=
  if !predictionsDirExists then
    .error "No predictions directory generated by Boltz-2"
  else
    match findPredDir inputName dirs with
    | none => .error "No prediction subdirectory found"
    | some d => .ok (parsePredDir d)

/-! ## Base64 artifact transport and `RunPodService.parse_boltz_output` -/

/-- Sextet stream of standard base64 encoding: each 3-byte group becomes 4
six-bit values; a trailing 1-byte group becomes 2 sextets, a trailing 2-byte
group 3 sextets (`base64.b64encode`). -/
def b64encodeSextets : List Nat → List Nat
  | [] => []
  | [a] => [a / 4, a % 4 * 16]
  | [a, b] => [a / 4, a % 4 * 16 + b / 16, b % 16 * 4]
  | a :: b :: c :: rest =>
    a / 4 :: (a % 4 * 16 + b / 16) :: (b % 16 * 4 + c / 64) :: c % 64 ::
      b64encodeSextets rest

/-- Inverse regrouping: 4 sextets back to 3 bytes, with the 2- and 3-sextet
tails of the padding cases (`base64.b64decode`). -/
def b64decodeSextets : List Nat → List Nat
  | s1 :: s2 :: s3 :: s4 :: rest =>
    (s1 * 4 + s2 / 16) :: (s2 % 16 * 16 + s3 / 4) :: (s3 % 4 * 64 + s4) ::
      b64decodeSextets rest
  | [s1, s2] => [s1 * 4 + s2 / 16]
  | [s1, s2, s3] => [s1 * 4 + s2 / 16, s2 % 16 * 16 + s3 / 4]
  | _ => []

/-- The standard base64 alphabet: 0–25 ↦ `A`–`Z`, 26–51 ↦ `a`–`z`,
52–61 ↦ `0`–`9`, 62 ↦ `+`, 63 ↦ `/`. -/
def sextetToChar (s : Nat) : Char :=
  if s < 26 then Char.ofNat (65 + s)
  else if s < 52 then Char.ofNat (97 + (s - 26))
  else if s < 62 then Char.ofNat (48 + (s - 52))
  else if s == 62 then '+'
  else '/'

/-- Inverse of the base64 alphabet on its image. -/
def charToSextet (c : Char) : Nat :=
  if 65 ≤ c.toNat && c.toNat ≤ 90 then c.toNat - 65
  else if 97 ≤ c.toNat && c.toNat ≤ 122 then 26 + (c.toNat - 97)
  else if 48 ≤ c.toNat && c.toNat ≤ 57 then 52 + (c.toNat - 48)
  else if c == '+' then 62
  else 63

/-- The `=` padding appended by `base64.b64encode` for a trailing 1- or
2-byte group. -/
def b64padding (len : Nat) : List Char :=
  if len % 3 == 1 then ['=', '=']
  else if len % 3 == 2 then ['=']
  else []

/-- Model of `RunPodService.encode_file_to_base64` applied to file contents `l`
(a byte list): `base64.b64encode(data).decode("utf-8")`. -/
def encodeFileToBase64 (l : List Nat) : String :=
  String.mk ((b64encodeSextets l).map sextetToChar ++ b64padding l.length)

/-- Model of `RunPodService.decode_base64_to_file` without the file write: the byte
contents `base64.b64decode(s)` produces (padding stripped, characters mapped
back to sextets, sextets regrouped into bytes). -/
def decodeBase64Bytes (s : String) : List Nat :=
  b64decodeSextets ((s.data.filter (fun c => c != '=')).map charToSextet)

/-- The slice of the RunPod output payload that `parse_boltz_output` reads:
three optional scalar fields and two optional name→base64 maps. -/
structure RunpodOutput where
  affinity_pred_value : Option Rat
  affinity_probability_binary : Option Rat
  confidence_score : Option Rat
  pose_files : Option (List (String × String))
  output_files : Option (List (String × String))
  deriving Repr, DecidableEq

/-- What `parse_boltz_output` produces: the `result_data` dictionary plus
the files written (via `decode_base64_to_file`) into the job's output
directory, as name → decoded bytes. -/
structure ParsedBoltzOutput where
  affinity_pred_value : Option Rat
  affinity_probability_binary : Option Rat
  confidence_score : Option Rat
  pose_files : Option (List String)
  poses_generated : Option Nat
  written : List (String × List Nat)
  deriving Repr, DecidableEq

/-- Model of `RunPodService.parse_boltz_output`: copy the scalar fields present in
the payload; decode and write every entry of the `pose_files` map, recording
the names and setting `poses_generated` to their count; decode and write
every entry of the `output_files` map (not recorded in `result_data`). -/
def parseBoltzOutput (o : RunpodOutput) : ParsedBoltzOutput :=
  let poseNames := o.pose_files.map (fun m => m.map (fun p => p.1))
  let poseWrites :=
    match o.pose_files with
    | none => []
    | some m => m.map (fun p => (p.1, decodeBase64Bytes p.2))
  let extraWrites :=
    match o.output_files with
    | none => []
    | some m => m.map (fun p => (p.1, decodeBase64Bytes p.2))
  { affinity_pred_value := o.affinity_pred_value,
    affinity_probability_binary := o.affinity_probability_binary,
    confidence_score := o.confidence_score,
    pose_files := poseNames,
    poses_generated := poseNames.map (fun ns => ns.length),
    written := poseWrites ++ extraWrites }

/-! ## Theorems -/

/-- Lookup after the keyed map underlying `updateJobStatus`: the record under
the updated id is merged, every other record is returned unchanged. -/
theorem lookupJob_map_update (s : JobStore) (jobId q status : String)
    (progress : Rat) (now : Nat) :
    lookupJob (s.map (fun p => if p.1 = jobId then
        (p.1, { p.2 with status := status, progress := progress, updated_at := now })
      else p)) q
    = (lookupJob s q).map (fun m =>
        if q = jobId then { m with status := status, progress := progress, updated_at := now }
        else m) := by
  induction s with
  | nil => rfl
  | cons p ps ih =>
    obtain ⟨key, m⟩ := p
    simp only [List.map_cons]
    by_cases hpj : key = jobId
    · subst hpj
      by_cases hpq : key = q
      · subst hpq; simp [lookupJob]
      · simp [lookupJob, hpq, ih]
    · by_cases hpq : key = q
      · subst hpq
        simp [lookupJob, hpj]
      · simp [lookupJob, hpj, hpq, ih]

/-- Claim C6: updating the status of a job id with no record is a silent
no-op — no error (the operation is total), no record created, the store
unchanged; updating an existing record merges the given status and progress
and refreshes `updated_at` (leaving `created_at` and the request snapshot
intact), and leaves every other id's record untouched. -/
theorem updateJobStatus_missing_noop_present_merge (s : JobStore)
    (jobId status : String) (progress : Rat) (now : Nat) :
    (lookupJob s jobId = none → updateJobStatus s jobId status progress now = s)
    ∧ (∀ m, lookupJob s jobId = some m →
        lookupJob (updateJobStatus s jobId status progress now) jobId =
          some { m with status := status, progress := progress, updated_at := now }
        ∧ ∀ q, q ≠ jobId →
            lookupJob (updateJobStatus s jobId status progress now) q = lookupJob s q) := by
  refine ⟨fun h => ?_, fun m hm => ⟨?_, fun q hq => ?_⟩⟩
  · simp [updateJobStatus, h]
  · simp [updateJobStatus, hm, lookupJob_map_update]
  · simp [updateJobStatus, hm, lookupJob_map_update, hq]

/-- Witness for C6 at a concrete store: an update aimed at an absent id
leaves the store exactly as it was. -/
theorem updateJobStatus_missing_noop_present_merge_witness :
    updateJobStatus [("job-a", ⟨"pending", 0, 1, 1, "MALW", "CCO"⟩)]
        "job-b" "running" 50 3
      = [("job-a", ⟨"pending", 0, 1, 1, "MALW", "CCO"⟩)] :=
  (updateJobStatus_missing_noop_present_merge
    [("job-a", ⟨"pending", 0, 1, 1, "MALW", "CCO"⟩)] "job-b" "running" 50 3).1
    (by decide)

/-- Keys of a `runCreates` sequence: the k-th create stores its record under
the k-th uuid draw. -/
theorem runCreates_keys (gen : Nat → String) (now : Nat) :
    ∀ (reqs : List (String × String)) (k : Nat),
      (runCreates gen now k reqs).map Prod.fst = (List.range' k reqs.length).map gen := by
  intro reqs
  induction reqs with
  | nil => intro k; rfl
  | cons r rest ih =>
    intro k
    obtain ⟨protein, ligand⟩ := r
    simp [runCreates, createPredictionJob, ih, List.range'_succ]

/-- Claim C5: reading a job immediately after `create_prediction_job` wrote
it returns a record with status `"pending"` and progress `0` (and both
timestamps at the creation instant), and — with the uuid stream modelled as
an injective generator, which is the guarantee `uuid.uuid4()` provides —
the ids allocated by any sequence of creates are pairwise distinct. -/
theorem createPredictionJob_fresh_id_pending_readback (gen : Nat → String)
    (hinj : Function.Injective gen) (s : JobStore) (now : Nat)
    (protein ligand : String) (i : Nat)
    (reqs : List (String × String)) (k : Nat) :
    getJobStatus (createPredictionJob s (gen i) now protein ligand).2
        (createPredictionJob s (gen i) now protein ligand).1
      = some { job_id := gen i, status := "pending", created_at := now,
               updated_at := now, progress := 0 }
    ∧ ((runCreates gen now k reqs).map Prod.fst).Nodup := by
  constructor
  · simp [createPredictionJob, getJobStatus, lookupJob]
  · rw [runCreates_keys]
    exact (List.nodup_range' _ _).map hinj

/-- Injectivity of the concrete uuid stream used in the C5 witness. -/
theorem replicateGen_injective :
    Function.Injective (fun n => String.mk (List.replicate n 'a')) := by
  intro a b h
  have h2 : List.replicate a 'a' = List.replicate b 'a' := congrArg String.data h
  have h3 := congrArg List.length h2
  simpa using h3

/-- Witness for C5: two concrete creates drawing from an injective uuid
stream produce pairwise-distinct stored ids. -/
theorem createPredictionJob_fresh_id_pending_readback_witness :
    Function.Injective (fun n => String.mk (List.replicate n 'a'))
    ∧ ((runCreates (fun n => String.mk (List.replicate n 'a')) 7 0
          [("MALWMRLLPLLALLALWGPDPAAA", "CC(=O)OC1=CC=CC=C1C(=O)O"),
           ("PEPTIDE", "CCO")]).map Prod.fst).Nodup :=
  ⟨replicateGen_injective,
    (createPredictionJob_fresh_id_pending_readback
      (fun n => String.mk (List.replicate n 'a')) replicateGen_injective [] 7
      "MALWMRLLPLLALLALWGPDPAAA" "CC(=O)OC1=CC=CC=C1C(=O)O" 1
      [("MALWMRLLPLLALLALWGPDPAAA", "CC(=O)OC1=CC=CC=C1C(=O)O"),
       ("PEPTIDE", "CCO")] 0).2⟩

/-- Claim C2: over every possible outcome of one `run_prediction` call, the
persisted `(status, progress)` history of the job — initial pending record
followed by the updates the call performs — takes only forward status
transitions (pending → running → \x7bcompleted, failed\x7d), never updates a job
that is already in a terminal state, keeps progress non-decreasing except on
the transition into `failed` (which resets it to 0), and ends in a terminal
record: completed at progress 100 or failed at progress 0. -/
theorem jobStatusTrace_monotone_forward_only (o : RunOutcome) :
    chainOk (jobStatusTrace o) = true ∧ endsTerminal (jobStatusTrace o) = true := by
  cases o with
  | yamlError msg =>
    cases h : isRecoverableError msg <;>
      simp [jobStatusTrace, runPredictionUpdates, errorHandlingUpdates, h] <;> decide
  | execError msg =>
    cases h : isRecoverableError msg <;>
      simp [jobStatusTrace, runPredictionUpdates, errorHandlingUpdates, h] <;> decide
  | execOk => decide

/-- Counterexample to claim C1: in the code the downgrade to a placeholder
is not optional and no strict mode exists — the error-classification test of
`run_prediction` is a fixed substring match, so a non-zero engine exit
(whose `CalledProcessError` text contains "non-zero exit status") is
*always* downgraded: the job's persisted history ends completed at progress
100 and the returned result has status `"completed"`, never FAILED with a
ProcessFailure classification as the claim requires. -/
theorem nonzero_exit_downgraded_to_completed :
    isRecoverableError
        "Command 'boltz predict input.yaml' returned non-zero exit status 1." = true
    ∧ (runPredictionResult "job-1" (.execError
        "Command 'boltz predict input.yaml' returned non-zero exit status 1.")).status
        = "completed"
    ∧ (runPredictionResult "job-1" (.execError
        "Command 'boltz predict input.yaml' returned non-zero exit status 1.")).status
        ≠ "failed"
    ∧ (jobStatusTrace (.execError
        "Command 'boltz predict input.yaml' returned non-zero exit status 1.")).getLast?
        = some ("completed", 100) := by
  decide

/-- Amended claim C1: the downgrade is unconditional, not optional — every
engine failure whose message matches the fixed substring list (memory,
allocation, timeout, subprocess, non-zero exit, "boltz") is downgraded to a
placeholder result with status `"completed"`, flagged only by its fixed
`error_message` note; there is no strict mode, and only failures matching no
substring end the job failed (at progress 0) with the raw exception text —
no ProcessFailure classification or stderr excerpt exists. -/
theorem runPrediction_downgrade_unconditional (jobId msg : String) :
    (isRecoverableError msg = true →
      (runPredictionResult jobId (.execError msg)).status = "completed"
      ∧ (runPredictionResult jobId (.execError msg)).error_message = some mockResultNote
      ∧ (jobStatusTrace (.execError msg)).getLast? = some ("completed", 100))
    ∧ (isRecoverableError msg = false →
      (runPredictionResult jobId (.execError msg)).status = "failed"
      ∧ (runPredictionResult jobId (.execError msg)).error_message = some msg
      ∧ (jobStatusTrace (.execError msg)).getLast? = some ("failed", 0)) := by
  constructor <;> intro h <;>
    simp [runPredictionResult, jobStatusTrace, runPredictionUpdates,
      errorHandlingUpdates, h]

/-- Witness for the amended C1 at a concrete matching error message. -/
theorem runPrediction_downgrade_unconditional_witness :
    (runPredictionResult "job-2" (.execError "boltz crashed")).status = "completed" :=
  ((runPrediction_downgrade_unconditional "job-2" "boltz crashed").1 (by decide)).1

/-- Counterexample to claim C7: a submit response that *has* an `id` field
holding the empty string is rejected (`if not job_id:` uses Python
truthiness), so `submit_job` does not return the identifier contained in
the response. -/
theorem submitJob_empty_id_rejected :
    submitJob (some "") ≠ Except.ok "" := by
  simp [submitJob]

/-- Amended claim C7: a response whose `id` field is absent *or* holds a
falsy (empty) string raises the missing-identifier error and no remote job
id is returned; for every non-empty id the returned value is exactly the
identifier contained in the response. -/
theorem submitJob_id_contract (s : String) :
    submitJob none = Except.error "RunPod API did not return a job ID"
    ∧ submitJob (some "") = Except.error "RunPod API did not return a job ID"
    ∧ (s ≠ "" → submitJob (some s) = Except.ok s) := by
  refine ⟨rfl, rfl, fun h => ?_⟩
  simp [submitJob, h]

/-- Witness for the amended C7 at a concrete non-empty id. -/
theorem submitJob_id_contract_witness :
    submitJob (some "rp-abc-123") = Except.ok "rp-abc-123" :=
  (submitJob_id_contract "rp-abc-123").2.2 (by decide)

/-- Claim C8: `get_job_output` fails with the invalid-state error whenever
the remote status is not COMPLETED; when it is COMPLETED, an output
delivered as a structured object is returned as that object, and an output
delivered as a JSON-encoded string that decodes to an object is returned in
exactly the same normalized shape as the object delivery. -/
theorem getJobOutput_completed_gate_and_normalization
    (dec : String → Option (List (String × String))) (jobId : String)
    (d : RemoteStatusOutput) :
    (d.status ≠ "COMPLETED" →
      getJobOutput dec jobId d =
        .error ("Job " ++ jobId ++ " is not completed. Current status: " ++ d.status))
    ∧ (∀ fields, d.status = "COMPLETED" → d.output = some (.obj fields) →
        getJobOutput dec jobId d = .ok (.obj fields))
    ∧ (∀ s fields, d.status = "COMPLETED" → d.output = some (.str s) →
        dec s = some fields →
        getJobOutput dec jobId d = .ok (.obj fields)
        ∧ getJobOutput dec jobId d =
            getJobOutput dec jobId ⟨"COMPLETED", some (.obj fields)⟩) := by
  refine ⟨fun h => ?_, fun fields h1 h2 => ?_, fun s fields h1 h2 h3 => ?_⟩
  · simp [getJobOutput, h]
  · simp [getJobOutput, h1, h2]
  · simp [getJobOutput, h1, h2, h3]

/-- Witness for C8: fetching the output of a still-running remote job fails
with the invalid-state error. -/
theorem getJobOutput_completed_gate_and_normalization_witness :
    getJobOutput (fun _ => none) "rp-1" ⟨"IN_PROGRESS", none⟩ =
      .error ("Job " ++ "rp-1" ++ " is not completed. Current status: " ++ "IN_PROGRESS") :=
  (getJobOutput_completed_gate_and_normalization (fun _ => none) "rp-1"
    ⟨"IN_PROGRESS", none⟩).1 (by decide)

/-- A completed wait only ever returns a payload some poll observed with
status COMPLETED, observed before the deadline. -/
theorem waitLoop_completed (poll : Nat → RemoteStatusData) (jobId : String)
    (pollInterval timeout : Nat) :
    ∀ (fuel k : Nat) (d : RemoteStatusData),
      waitLoop poll jobId pollInterval timeout fuel k = .completed d →
      d.status = "COMPLETED" ∧ ∃ n, k ≤ n ∧ n * pollInterval ≤ timeout ∧ poll n = d := by
  intro fuel
  induction fuel with
  | zero => intro k d h; simp [waitLoop] at h
  | succ fuel ih =>
    intro k d h
    rw [waitLoop] at h
    split at h
    · exact absurd h (by simp)
    · rename_i hguard
      split at h
      · rename_i hcomp
        cases h
        refine ⟨by simpa using hcomp, k, le_refl k, by omega, rfl⟩
      · split at h
        · exact absurd h (by simp)
        · obtain ⟨hstat, n, hkn, hn, hpoll⟩ := ih (k + 1) d h
          exact ⟨hstat, n, by omega, hn, hpoll⟩

/-- A remote-failure wait only arises from a poll that observed FAILED,
CANCELLED or TIMED_OUT, and carries that poll's failure message. -/
theorem waitLoop_remoteFailure (poll : Nat → RemoteStatusData) (jobId : String)
    (pollInterval timeout : Nat) :
    ∀ (fuel k : Nat) (msg : String),
      waitLoop poll jobId pollInterval timeout fuel k = .remoteFailure msg →
      ∃ n, k ≤ n ∧ n * pollInterval ≤ timeout
        ∧ isFailedRemoteStatus (poll n).status = true
        ∧ msg = remoteFailureMsg jobId (poll n) := by
  intro fuel
  induction fuel with
  | zero => intro k msg h; simp [waitLoop] at h
  | succ fuel ih =>
    intro k msg h
    rw [waitLoop] at h
    split at h
    · exact absurd h (by simp)
    · rename_i hguard
      split at h
      · exact absurd h (by simp)
      · split at h
        · rename_i hfail
          cases h
          exact ⟨k, le_refl k, by omega, hfail, rfl⟩
        · obtain ⟨n, hkn, hn, hfail, hmsg⟩ := ih (k + 1) msg h
          exact ⟨n, by omega, hn, hfail, hmsg⟩

/-- When no poll ever observes a terminal status, the loop always ends in
the timeout error. -/
theorem waitLoop_no_terminal (poll : Nat → RemoteStatusData) (jobId : String)
    (pollInterval timeout : Nat)
    (hnt : ∀ n, isTerminalRemoteStatus (poll n).status = false) :
    ∀ (fuel k : Nat),
      waitLoop poll jobId pollInterval timeout fuel k =
        .timedOut (waitTimeoutMsg jobId timeout) := by
  intro fuel
  induction fuel with
  | zero => intro k; rfl
  | succ fuel ih =>
    intro k
    rw [waitLoop]
    have h1 : ((poll k).status == "COMPLETED") = false := by
      have := hnt k
      unfold isTerminalRemoteStatus at this
      exact (Bool.or_eq_false_iff.mp this).1
    have h2 : isFailedRemoteStatus (poll k).status = false := by
      have := hnt k
      unfold isTerminalRemoteStatus at this
      exact (Bool.or_eq_false_iff.mp this).2
    split
    · rfl
    · simp only [h1, h2, Bool.false_eq_true, if_false]
      exact ih (k + 1)

/-- Claim C4: for every sequence of remote statuses (and positive poll
interval, the regime in which the Python loop terminates),
`wait_for_job_completion` returns a value only when some poll within the
deadline observed COMPLETED; a remote-failure exception only arises from a
poll within the deadline that observed FAILED, CANCELLED or TIMED_OUT and
carries the remote-supplied error text (via `remoteFailureMsg`); and when no
poll ever observes a terminal status the call raises the timeout error — no
COMPLETED result is fabricated. -/
theorem waitForJobCompletion_terminal_contract (poll : Nat → RemoteStatusData)
    (jobId : String) (pollInterval timeout : Nat) (hpi : 0 < pollInterval) :
    (∀ d, waitForJobCompletion poll jobId pollInterval timeout = .completed d →
      d.status = "COMPLETED" ∧ ∃ n, n * pollInterval ≤ timeout ∧ poll n = d)
    ∧ (∀ msg, waitForJobCompletion poll jobId pollInterval timeout = .remoteFailure msg →
      ∃ n, n * pollInterval ≤ timeout ∧ isFailedRemoteStatus (poll n).status = true
        ∧ msg = remoteFailureMsg jobId (poll n))
    ∧ ((∀ n, isTerminalRemoteStatus (poll n).status = false) →
      waitForJobCompletion poll jobId pollInterval timeout =
        .timedOut (waitTimeoutMsg jobId timeout)) := by
  have hp := hpi
  refine ⟨fun d h => ?_, fun msg h => ?_, fun hnt => ?_⟩
  · obtain ⟨hstat, n, _, hn, hpoll⟩ :=
      waitLoop_completed poll jobId pollInterval timeout _ 0 d h
    exact ⟨hstat, n, hn, hpoll⟩
  · obtain ⟨n, _, hn, hfail, hmsg⟩ :=
      waitLoop_remoteFailure poll jobId pollInterval timeout _ 0 msg h
    exact ⟨n, hn, hfail, hmsg⟩
  · exact waitLoop_no_terminal poll jobId pollInterval timeout hnt _ 0

/-- Witness for C4: a remote job that reports IN_PROGRESS forever makes the
wait raise the timeout error. -/
theorem waitForJobCompletion_terminal_contract_witness :
    (0 : Nat) < 5 ∧
    waitForJobCompletion (fun _ => ⟨"IN_PROGRESS", none⟩) "rp-9" 5 12 =
      .timedOut (waitTimeoutMsg "rp-9" 12) :=
  ⟨by decide,
    (waitForJobCompletion_terminal_contract (fun _ => ⟨"IN_PROGRESS", none⟩)
      "rp-9" 5 12 (by decide)).2.2 (fun _ => by decide)⟩

/-- Membership in a descending insertion: the inserted element or one of the
original ones. -/
theorem mem_insertByUpdatedDesc (j a : JobMeta) :
    ∀ l : List JobMeta, a ∈ insertByUpdatedDesc j l ↔ a = j ∨ a ∈ l := by
  intro l
  induction l with
  | nil => simp [insertByUpdatedDesc]
  | cons k ks ih =>
    unfold insertByUpdatedDesc
    split
    · simp
    · simp only [List.mem_cons, ih]
      tauto

/-- Descending insertion preserves the newest-first ordering. -/
theorem pairwise_insertByUpdatedDesc (j : JobMeta) :
    ∀ l : List JobMeta,
      l.Pairwise (fun a b => b.updated_at ≤ a.updated_at) →
      (insertByUpdatedDesc j l).Pairwise (fun a b => b.updated_at ≤ a.updated_at) := by
  intro l
  induction l with
  | nil => intro _; simp [insertByUpdatedDesc]
  | cons k ks ih =>
    intro hp
    rw [List.pairwise_cons] at hp
    obtain ⟨hk, hks⟩ := hp
    unfold insertByUpdatedDesc
    split
    · rename_i hle
      rw [List.pairwise_cons]
      constructor
      · intro b hb
        rcases List.mem_cons.mp hb with hb | hb
        · subst hb; exact hle
        · exact le_trans (hk b hb) hle
      · exact List.pairwise_cons.mpr ⟨hk, hks⟩
    · rename_i hgt
      rw [List.pairwise_cons]
      constructor
      · intro b hb
        rcases (mem_insertByUpdatedDesc j b ks).mp hb with hb | hb
        · subst hb; omega
        · exact hk b hb
      · exact ih hks

/-- Sorting introduces no record that was not in the input. -/
theorem mem_sortByUpdatedDesc (a : JobMeta) :
    ∀ l : List JobMeta, a ∈ sortByUpdatedDesc l → a ∈ l := by
  intro l
  induction l with
  | nil => intro h; simp [sortByUpdatedDesc] at h
  | cons j js ih =>
    intro h
    unfold sortByUpdatedDesc at h
    rcases (mem_insertByUpdatedDesc j a (sortByUpdatedDesc js)).mp h with h | h
    · subst h; exact List.mem_cons_self _ _
    · exact List.mem_cons_of_mem _ (ih h)

/-- The sort really is newest-first. -/
theorem pairwise_sortByUpdatedDesc :
    ∀ l : List JobMeta,
      (sortByUpdatedDesc l).Pairwise (fun a b => b.updated_at ≤ a.updated_at) := by
  intro l
  induction l with
  | nil => simp [sortByUpdatedDesc]
  | cons j js ih => exact pairwise_insertByUpdatedDesc j _ ih

/-- Claim C3: for every stored job set, status filter and limit, the listing
returns only records matching the filter (in particular, under the
`"completed"` filter only records whose persisted status is `"completed"`),
sorted by `updated_at` descending, and truncated to at most `limit`
records. -/
theorem listJobs_filter_sort_limit (jobs : List JobMeta)
    (statusFilter : Option String) (lim : Nat) :
    (∀ j, j ∈ listJobs jobs statusFilter lim → matchesFilter statusFilter j = true)
    ∧ (∀ j s, j ∈ listJobs jobs (some s) lim → j.status = s)
    ∧ (listJobs jobs statusFilter lim).Pairwise (fun a b => b.updated_at ≤ a.updated_at)
    ∧ (listJobs jobs statusFilter lim).length ≤ lim
    ∧ (∀ j, j ∈ listJobs jobs (some "completed") lim → j.status = "completed") := by
  have hmem : ∀ (f : Option String) (j : JobMeta), j ∈ listJobs jobs f lim →
      matchesFilter f j = true := by
    intro f j hj
    have h1 : j ∈ sortByUpdatedDesc (jobs.filter (matchesFilter f)) :=
      (List.take_sublist _ _).subset hj
    have h2 := mem_sortByUpdatedDesc j _ h1
    exact List.of_mem_filter h2
  have hstat : ∀ (s : String) (j : JobMeta), j ∈ listJobs jobs (some s) lim →
      j.status = s := by
    intro s j hj
    have := hmem (some s) j hj
    simpa [matchesFilter] using this
  refine ⟨hmem statusFilter, fun j s hj => hstat s j hj, ?_, ?_, hstat "completed"⟩
  · exact List.Pairwise.sublist (List.take_sublist _ _) (pairwise_sortByUpdatedDesc _)
  · exact List.length_take_le _ _

/-- Witness for C3: listing a concrete three-job store under the
`"completed"` filter yields only completed records within the limit. -/
theorem listJobs_filter_sort_limit_witness :
    (⟨"completed", 100, 0, 5, "MALW", "CCO"⟩ : JobMeta).status = "completed"
    ∧ (listJobs
        [⟨"completed", 100, 0, 3, "MALW", "CCO"⟩,
         ⟨"running", 50, 0, 7, "PEPTIDE", "CCN"⟩,
         ⟨"completed", 100, 0, 5, "MALW", "CCO"⟩] (some "completed") 2).length ≤ 2 :=
  ⟨(listJobs_filter_sort_limit
      [⟨"completed", 100, 0, 3, "MALW", "CCO"⟩,
       ⟨"running", 50, 0, 7, "PEPTIDE", "CCN"⟩,
       ⟨"completed", 100, 0, 5, "MALW", "CCO"⟩] (some "completed") 2).2.2.2.2
      ⟨"completed", 100, 0, 5, "MALW", "CCO"⟩ (by decide),
    (listJobs_filter_sort_limit
      [⟨"completed", 100, 0, 3, "MALW", "CCO"⟩,
       ⟨"running", 50, 0, 7, "PEPTIDE", "CCN"⟩,
       ⟨"completed", 100, 0, 5, "MALW", "CCO"⟩] (some "completed") 2).2.2.2.1⟩

/-- Claim C9: after a successful engine run, the per-run output subdirectory
is located as the first one whose name contains the input spec's base name,
with a fallback to the first subdirectory when none matches; the selected
directory is parsed without aborting, each artifact is used when present and
parsable, and a missing or unparsable artifact degrades to the documented
defaults (affinity −7.2 and 0.89, confidence 0.85). -/
theorem executeBoltzParse_locate_and_defaults (inputName : String)
    (dirs : List PredDir) (d : PredDir) :
    (dirs.find? (fun x => strContains x.name inputName) = some d →
      findPredDir inputName dirs = some d ∧ strContains d.name inputName = true)
    ∧ ((∀ x ∈ dirs, strContains x.name inputName = false) →
      findPredDir inputName dirs = dirs.head?)
    ∧ (findPredDir inputName dirs = some d →
      executeBoltzParse inputName true dirs = .ok (parsePredDir d))
    ∧ ((d.affinityFile = none ∨ d.affinityFile = some none) →
      (parsePredDir d).affinity_pred_value = some (-7.2)
      ∧ (parsePredDir d).affinity_probability_binary = some 0.89)
    ∧ ((d.confidenceFile = none ∨ d.confidenceFile = some none) →
      (parsePredDir d).confidence_score = some 0.85)
    ∧ (∀ a, d.affinityFile = some (some a) →
      (parsePredDir d).affinity_pred_value = a.affinity_pred_value
      ∧ (parsePredDir d).affinity_probability_binary = a.affinity_probability_binary)
    ∧ (∀ c, d.confidenceFile = some (some c) →
      (parsePredDir d).confidence_score = some (c.confidence_score.getD 0.85)) := by
  refine ⟨fun h => ⟨?_, ?_⟩, fun h => ?_, fun h => ?_, fun h => ?_, fun h => ?_,
    fun a ha => ?_, fun c hc => ?_⟩
  · simp [findPredDir, h]
  · have h2 := List.find?_some h
    simpa using h2
  · have hn : dirs.find? (fun x => strContains x.name inputName) = none :=
      List.find?_eq_none.mpr (fun x hx => by simp [h x hx])
    simp [findPredDir, hn]
  · simp [executeBoltzParse, h]
  · rcases h with h | h <;> simp [parsePredDir, h]
  · rcases h with h | h <;> simp [parsePredDir, h]
  · simp [parsePredDir, ha]
  · simp [parsePredDir, hc]

/-- Witness for C9: a run directory with both artifacts missing parses to
the documented default values rather than aborting. -/
theorem executeBoltzParse_locate_and_defaults_witness :
    (parsePredDir ⟨"job7_input", ["m0.cif"], none, none⟩).affinity_pred_value
      = some (-7.2)
    ∧ (parsePredDir ⟨"job7_input", ["m0.cif"], none, none⟩).confidence_score
      = some 0.85 :=
  ⟨((executeBoltzParse_locate_and_defaults "job7_input" []
      ⟨"job7_input", ["m0.cif"], none, none⟩).2.2.2.1 (Or.inl rfl)).1,
    (executeBoltzParse_locate_and_defaults "job7_input" []
      ⟨"job7_input", ["m0.cif"], none, none⟩).2.2.2.2.1 (Or.inl rfl)⟩

/-- Regrouping 4 sextets back into 3 bytes undoes the 3-bytes-to-4-sextets
regrouping, including the 1- and 2-byte tails. -/
theorem b64decode_encode_sextets :
    ∀ l : List Nat, (∀ b ∈ l, b < 256) →
      b64decodeSextets (b64encodeSextets l) = l := by
  intro l
  induction l using b64encodeSextets.induct with
  | case1 => intro _; rfl
  | case2 a =>
    intro h
    have ha : a < 256 := h a (by simp)
    simp only [b64encodeSextets, b64decodeSextets, List.cons.injEq, and_true]
    omega
  | case3 a b =>
    intro h
    have ha : a < 256 := h a (by simp)
    have hb : b < 256 := h b (by simp)
    simp only [b64encodeSextets, b64decodeSextets, List.cons.injEq, and_true]
    omega
  | case4 a b c rest ih =>
    intro h
    have ha : a < 256 := h a (by simp)
    have hb : b < 256 := h b (by simp)
    have hc : c < 256 := h c (by simp)
    simp only [b64encodeSextets, b64decodeSextets, List.cons.injEq]
    refine ⟨by omega, by omega, by omega, ih (fun x hx => h x (by simp [hx]))⟩

/-- Every sextet produced from in-range bytes is in range of the base64
alphabet. -/
theorem b64encodeSextets_lt :
    ∀ l : List Nat, (∀ b ∈ l, b < 256) →
      ∀ s ∈ b64encodeSextets l, s < 64 := by
  intro l
  induction l using b64encodeSextets.induct with
  | case1 => intro _ s hs; simp [b64encodeSextets] at hs
  | case2 a =>
    intro h s hs
    have ha : a < 256 := h a (by simp)
    simp [b64encodeSextets] at hs
    rcases hs with hs | hs <;> omega
  | case3 a b =>
    intro h s hs
    have ha : a < 256 := h a (by simp)
    have hb : b < 256 := h b (by simp)
    simp [b64encodeSextets] at hs
    rcases hs with hs | hs | hs <;> omega
  | case4 a b c rest ih =>
    intro h s hs
    have ha : a < 256 := h a (by simp)
    have hb : b < 256 := h b (by simp)
    have hc : c < 256 := h c (by simp)
    simp [b64encodeSextets] at hs
    rcases hs with hs | hs | hs | hs | hs
    · omega
    · omega
    · omega
    · omega
    · exact ih (fun x hx => h x (by simp [hx])) s hs

/-- The base64 alphabet is inverted exactly by `charToSextet`. -/
theorem charToSextet_sextetToChar :
    ∀ s : Fin 64, charToSextet (sextetToChar s.val) = s.val := by
  decide

/-- No alphabet character collides with the `=` padding character. -/
theorem sextetToChar_ne_pad :
    ∀ s : Fin 64, (sextetToChar s.val != '=') = true := by
  decide

/-- Stripping `=` removes the whole padding block. -/
theorem filter_b64padding (n : Nat) :
    (b64padding n).filter (fun c => c != '=') = [] := by
  unfold b64padding
  split
  · rfl
  · split <;> rfl

/-- Decoding a base64-encoded byte list recovers exactly the original
bytes. -/
theorem decodeBase64_encodeFile (l : List Nat) (h : ∀ b ∈ l, b < 256) :
    decodeBase64Bytes (encodeFileToBase64 l) = l := by
  unfold decodeBase64Bytes encodeFileToBase64
  show b64decodeSextets
    ((((b64encodeSextets l).map sextetToChar ++ b64padding l.length).filter
      (fun c => c != '=')).map charToSextet) = l
  rw [List.filter_append, filter_b64padding, List.append_nil]
  rw [List.filter_eq_self.mpr]
  · rw [List.map_map]
    have hcongr : ((b64encodeSextets l).map (charToSextet ∘ sextetToChar))
        = (b64encodeSextets l).map id := by
      apply List.map_congr_left
      intro s hs
      have hlt : s < 64 := b64encodeSextets_lt l h s hs
      exact charToSextet_sextetToChar ⟨s, hlt⟩
    rw [hcongr, List.map_id]
    exact b64decode_encode_sextets l h
  · intro c hc
    obtain ⟨s, hs, rfl⟩ := List.mem_map.mp hc
    have hlt : s < 64 := b64encodeSextets_lt l h s hs
    exact sextetToChar_ne_pad ⟨s, hlt⟩

/-- Claim C10: decode after encode is the identity on byte contents, so when
the remote payload's pose map holds base64 encodings of original files,
`parse_boltz_output` writes each pose artifact with exactly the original
bytes, records exactly the map's names, and reports `poses_generated` equal
to the number of entries in the pose map. -/
theorem base64_roundtrip_parse_output (contents : List (String × List Nat))
    (h : ∀ p ∈ contents, ∀ b ∈ p.2, b < 256) :
    (∀ l, (∀ b ∈ l, b < 256) → decodeBase64Bytes (encodeFileToBase64 l) = l)
    ∧ (parseBoltzOutput ⟨none, none, none,
        some (contents.map (fun p => (p.1, encodeFileToBase64 p.2))), none⟩).written
        = contents
    ∧ (parseBoltzOutput ⟨none, none, none,
        some (contents.map (fun p => (p.1, encodeFileToBase64 p.2))), none⟩).poses_generated
        = some contents.length
    ∧ (parseBoltzOutput ⟨none, none, none,
        some (contents.map (fun p => (p.1, encodeFileToBase64 p.2))), none⟩).pose_files
        = some (contents.map Prod.fst) := by
  refine ⟨decodeBase64_encodeFile, ?_, ?_, ?_⟩
  · simp only [parseBoltzOutput, List.map_map, List.append_nil]
    have hc : ∀ p ∈ contents,
        ((fun p : String × String => (p.1, decodeBase64Bytes p.2)) ∘
          (fun p : String × List Nat => (p.1, encodeFileToBase64 p.2))) p = id p := by
      intro p hp
      simp [Function.comp, decodeBase64_encodeFile p.2 (h p hp)]
    rw [List.map_congr_left hc, List.map_id]
  · simp [parseBoltzOutput, List.map_map, Function.comp]
  · simp [parseBoltzOutput, List.map_map, Function.comp]

/-- Witness for C10: a one-pose payload round-trips its bytes exactly and
counts one pose. -/
theorem base64_roundtrip_parse_output_witness :
    (parseBoltzOutput ⟨none, none, none,
        some ([(("pose_1.pdb" : String), ([72, 73] : List Nat))].map
          (fun p => (p.1, encodeFileToBase64 p.2))), none⟩).written
      = [("pose_1.pdb", [72, 73])]
    ∧ (parseBoltzOutput ⟨none, none, none,
        some ([(("pose_1.pdb" : String), ([72, 73] : List Nat))].map
          (fun p => (p.1, encodeFileToBase64 p.2))), none⟩).poses_generated
      = some 1 :=
  ⟨(base64_roundtrip_parse_output [("pose_1.pdb", [72, 73])] (by decide)).2.1,
    (base64_roundtrip_parse_output [("pose_1.pdb", [72, 73])] (by decide)).2.2.1⟩

end Atomera
